import Mathlib

/-!
Verification of the conversation state machine, name matcher and fan-out
delivery engine of the `go-invite-me` repository.

The Go sources are shallowly embedded: each Go function used by the claims is
translated into an executable Lean definition operating on the same data.
Strings are modelled as Lean `String`s; the Go standard-library string
operations used by the code (`strings.Split`, `strings.TrimSpace`,
`strings.ToLower`, `strings.Contains`, `strings.HasPrefix`, `strings.Index`,
`strings.Join`) are translated below as character-list functions (for ASCII
input these agree with Go's Unicode-aware versions; every string the claims
quantify over or evaluate at is ASCII).
-/

namespace GoInviteMe

/-! ### Go string primitives -/

/-- Character-level `strings.Split(s, sep)` for a one-character separator:
splits on every occurrence of `sep`, keeping empty pieces; the result is
always non-empty. -/
def splitChars (sep : Char) : List Char → List (List Char)
  | [] => [[]]
  | c :: cs =>
    let rest := splitChars sep cs
    if c = sep then [] :: rest
    else
      match rest with
      | [] => [[c]]
      | piece :: pieces => (c :: piece) :: pieces

/-- `strings.Split(s, sep)` for a one-character separator. -/
def goSplit (s : String) (sep : Char) : List String :=
  (splitChars sep s.data).map String.mk

/-- Leading- and trailing-whitespace trim on a character list
(`strings.TrimSpace` for ASCII input). -/
def trimChars (l : List Char) : List Char :=
  ((l.dropWhile Char.isWhitespace).reverse.dropWhile Char.isWhitespace).reverse

/-- `strings.TrimSpace` (ASCII whitespace). -/
def strTrim (s : String) : String := String.mk (trimChars s.data)

/-- `strings.ToLower` (ASCII case folding). -/
def strToLower (s : String) : String := String.mk (s.data.map Char.toLower)

/-- Boolean test that `sub` is a prefix of the second list. -/
def isPrefixChars : List Char → List Char → Bool
  | [], _ => true
  | _ :: _, [] => false
  | a :: as, b :: bs => a = b && isPrefixChars as bs

/-- Boolean test that `sub` occurs as a contiguous substring
(`strings.Contains` on character lists). -/
def containsChars (sub : List Char) : List Char → Bool
  | [] => sub.isEmpty
  | c :: rest => isPrefixChars sub (c :: rest) || containsChars sub rest

/-- `strings.Contains(s, sub)`. -/
def strContains (s sub : String) : Bool := containsChars sub.data s.data

/-- `strings.HasPrefix(s, pre)`. -/
def strHasPre (s pre : String) : Bool := isPrefixChars pre.data s.data

/-- Characters strictly after the first `>` of the list, if any
(`strings.Index(text, ">")` followed by the slice `text[end+1:]`). -/
def dropThroughGt : List Char → Option (List Char)
  | [] => none
  | c :: cs => if c = '>' then some cs else dropThroughGt cs

/-! ### Directory entries and the name matcher
(`slack_bot_handler.go`, `HandleEvent`, lines 108–155) -/

/-- The fields of `slack.User` that the handler reads. -/
structure SlackUser where
  id : String
  name : String
  realName : String
  isBot : Bool
  deleted : Bool
deriving Repr, DecidableEq

/-- The per-entry test of the inner matching loop: the entry's handle
(`user.Name`) or display name (`user.RealName`) contains the input fragment
as a case-insensitive substring. -/
def userMatches (user : SlackUser) (inputName : String) : Bool :=
  strContains (strToLower user.name) (strToLower inputName) ||
    strContains (strToLower user.realName) (strToLower inputName)

/-- The matching loop of `HandleEvent`: for each input fragment, in order,
bind it to the first filtered directory entry satisfying `userMatches`
(the inner loop `break`s on the first hit) appending `(ID, RealName)` to the
matched sequences, or append the fragment to `unmatched` when no entry hits.
Returns `(matchedUserIDs, matchedNames, unmatched)`. -/
def fuzzyMatch (trimmedNames : List String) (validUsers : List SlackUser) :
    List String × List String × List String :=
  match trimmedNames with
  | [] => ([], [], [])
  | inputName :: rest =>
    let r := fuzzyMatch rest validUsers
    match validUsers.find? (fun user => userMatches user inputName) with
    | some user => (user.id :: r.1, user.realName :: r.2.1, r.2.2)
    | none => (r.1, r.2.1, inputName :: r.2.2)

/-- The fragment pipeline of the names step: split the inbound text on commas
and trim each piece (`strings.Split` + `strings.TrimSpace` loop). -/
def parseNames (text : String) : List String :=
  (goSplit text ',').map strTrim

/-- The bot-and-deleted filter loop applied to the directory snapshot
(`if !u.IsBot && !u.Deleted`). -/
def filterValid (users : List SlackUser) : List SlackUser :=
  users.filter (fun u => !u.isBot && !u.deleted)

/-! ### The conversation store
(`conversationStates map[string]*ConversationState` guarded by
`conversationMutex`; the three access patterns of the handler) -/

/-- Go map lookup `h.conversationStates[userID]`, on an association-list
model of the map. -/
def storeLookup {σ : Type} (store : List (String × σ)) (k : String) : Option σ :=
  (store.find? (fun p => p.1 = k)).map Prod.snd

/-- Go map write `h.conversationStates[userID] = state` (covers both the
creation of a fresh state and the in-place mutation of the state the map
points to). -/
def storeInsert {σ : Type} (store : List (String × σ)) (k : String) (v : σ) :
    List (String × σ) :=
  (k, v) :: store.filter (fun p => ¬ p.1 = k)

/-- Go map delete `delete(h.conversationStates, userID)`
(`deleteConversation`). -/
def storeDelete {σ : Type} (store : List (String × σ)) (k : String) :
    List (String × σ) :=
  store.filter (fun p => ¬ p.1 = k)

/-! ### Event payloads and the handler environment -/

/-- `SlackEvent`: the relevant fields of the inbound event. -/
structure SlackEvent where
  type : String
  user : String
  text : String
  channel : String
  botID : String
deriving Repr, DecidableEq

/-- `SlackEventCallback`: the envelope of the inbound payload. -/
structure SlackEventCallback where
  token : String
  type : String
  challenge : String
  event : SlackEvent
deriving Repr, DecidableEq

/-- The external collaborators consulted by `HandleEvent`:
`slackClient.GetUsers` (one directory snapshot per event) and
`slackClient.PostMessage` (modelled by the error, if any, that posting to a
given identifier returns). -/
structure HandlerEnv where
  getUsers : Except String (List SlackUser)
  post : String → Option String

/-- Observable outcome of one `HandleEvent` invocation: the conversation
store afterwards, the HTTP status written to the event source, the JSON body
(for the challenge echo and the bind error), the texts posted to channels via
`sendMessage`, and the texts posted to individual recipients by the fan-out
loop. -/
structure HandleResult (σ : Type) where
  store : List (String × σ)
  status : Nat
  body : Option String
  channelMessages : List (String × String)
  recipientMessages : List (String × String)
deriving Repr, DecidableEq

/-! ### The conversation state machine
(`slack_bot_handler.go`, `HandleEvent`) -/

/-- `ConversationState` of `slack_bot_handler.go`. -/
structure ConversationState where
  step : String
  recipientUserIDs : List String
deriving Repr, DecidableEq

/-- `removeBotMention`: drop a leading `<@...>` mention token (everything up
to and including the first `>`) and trim; absence of `<@` prefix or of `>`
leaves the text unchanged. -/
def removeBotMention (text : String) : String :=
  if strHasPre text "<@" = true then
    match dropThroughGt text.data with
    | some rest => strTrim (String.mk rest)
    | none => text
  else text

/-- The text-preprocessing block of `HandleEvent`: mentions are stripped of
the leading bot-mention token, direct messages are used verbatim. -/
def eventText (ev : SlackEvent) : String :=
  if ev.type = "app_mention" then removeBotMention ev.text else ev.text

/-- The fixed greeting of the `NoState` transition. -/
def greetingText : String :=
  "Hi! Who do you want to message? Please provide a comma separated list of names."

/-- The diagnostic reply of the unmatched-names branch. -/
def unmatchedReplyText (unmatched allValidNames : List String) : String :=
  "Could not match the following names: " ++ String.intercalate ", " unmatched
    ++ ".\n" ++ "Valid user names include: "
    ++ String.intercalate ", " allValidNames ++ ".\n"
    ++ "Please provide a correct comma separated list of names."

/-- The prompt emitted when every fragment matched. -/
def matchedReplyText (matchedNames : List String) : String :=
  "Matched recipients: " ++ String.intercalate ", " matchedNames ++ ".\n"
    ++ "What do you want to ask?"

/-- The partial-failure reply of the question fan-out. -/
def questionFailText (sendErrors : List String) : String :=
  "Failed to send question to some recipients: "
    ++ String.intercalate "; " sendErrors

/-- The success reply of the question fan-out. -/
def questionSuccessText : String := "Your question was sent successfully!"

/-- The fan-out loop of the `awaiting_question` branch: post to each
recipient in order, collecting the error description of every failed send
(`sendErrors = append(sendErrors, err.Error())`); successes contribute
nothing. -/
def collectSendErrors (post : String → Option String) : List String → List String
  | [] => []
  | rid :: rest =>
    match post rid with
    | some e => e :: collectSendErrors post rest
    | none => collectSendErrors post rest

/-- `HandleEvent` of `slack_bot_handler.go`, after a successful
`c.BindJSON`: the URL-verification echo, the bot/event-kind filter, and the
three-way dispatch on the user's conversation state.  The store argument is
the `conversationStates` map at entry; all observable effects are collected
in the result. -/
def handleEvent (env : HandlerEnv) (store : List (String × ConversationState))
    (cb : SlackEventCallback) : HandleResult ConversationState :=
  if cb.type = "url_verification" then
    ⟨store, 200, some cb.challenge, [], []⟩
  else if (cb.event.type = "app_mention" ∨ strHasPre cb.event.channel "D" = true)
      ∧ cb.event.botID = "" then
    let userID := cb.event.user
    let channelID := cb.event.channel
    let text := eventText cb.event
    match storeLookup store userID with
    | none =>
      ⟨storeInsert store userID ⟨"awaiting_names", []⟩, 200, none,
        [(channelID, greetingText)], []⟩
    | some state =>
      if state.step = "awaiting_names" then
        let trimmedNames := parseNames text
        match env.getUsers with
        | Except.error e =>
          ⟨store, 500, none,
            [(channelID, "Error fetching users for matching: " ++ e)], []⟩
        | Except.ok users =>
          let validUsers := filterValid users
          let allValidNames := validUsers.map (fun u => u.realName)
          let r := fuzzyMatch trimmedNames validUsers
          if r.2.2.length > 0 then
            ⟨store, 200, none,
              [(channelID, unmatchedReplyText r.2.2 allValidNames)], []⟩
          else
            ⟨storeInsert store userID ⟨"awaiting_question", r.1⟩, 200, none,
              [(channelID, matchedReplyText r.2.1)], []⟩
      else if state.step = "awaiting_question" then
        let question := text
        let sendErrors := collectSendErrors env.post state.recipientUserIDs
        ⟨storeDelete store userID, 200, none,
          [(channelID,
            if sendErrors.length > 0 then questionFailText sendErrors
            else questionSuccessText)],
          state.recipientUserIDs.map (fun rid => (rid, question))⟩
      else
        ⟨store, 200, none, [], []⟩
  else
    ⟨store, 200, none, [], []⟩

/-- The full entry point including `c.BindJSON`: a malformed payload is
rejected with HTTP 400 and an error body, a parsed one is dispatched to
`handleEvent`. -/
def handleRequest (env : HandlerEnv) (store : List (String × ConversationState))
    (bindResult : Except String SlackEventCallback) :
    HandleResult ConversationState :=
  match bindResult with
  | Except.error e => ⟨store, 400, some e, [], []⟩
  | Except.ok cb => handleEvent env store cb

/-! ### The composer-generated variant of the handler
(the `SlackBotHandler` version whose payload step is `awaiting_game` and
which calls `callGoogleGemini` before delivering) -/

namespace Game

/-- `ConversationState` of the composer variant: it additionally stores the
matched recipients' display names for the composer prompt. -/
structure ConversationState where
  step : String
  recipientUserIDs : List String
  recipientUserNames : List String
deriving Repr, DecidableEq

/-- Collaborators of the composer variant: the directory snapshot,
`GetUserInfo` for the inviting user, `callGoogleGemini` (keyed by the
inviting user's display name, the recipient display names and the game
name), and `PostMessage`. -/
structure Env where
  getUsers : Except String (List SlackUser)
  getUserInfo : String → Except String SlackUser
  gemini : String → List String → String → Except String String
  post : String → Option String

/-- The all-matched prompt of the composer variant. -/
def gameMatchedReplyText (matchedNames : List String) : String :=
  "Matched recipients: " ++ String.intercalate ", " matchedNames ++ ".\n"
    ++ "What game do you want to invite them to?"

/-- The partial-failure reply of the invitation fan-out. -/
def inviteFailText (sendErrors : List String) : String :=
  "Failed to send invitation to some recipients: "
    ++ String.intercalate "; " sendErrors

/-- The success reply of the invitation fan-out. -/
def inviteSuccessText : String := "Your invitation was sent successfully!"

/-- `HandleEvent` of the composer variant, after a successful `c.BindJSON`.
It differs from the verbatim variant only in the payload step: the inviting
user's info is fetched, `callGoogleGemini` composes the invitation, a
composer failure deletes the state and aborts before any delivery, and the
fan-out otherwise posts the composed invitation. -/
def handleEvent (env : Env) (store : List (String × ConversationState))
    (cb : SlackEventCallback) : HandleResult ConversationState :=
  if cb.type = "url_verification" then
    ⟨store, 200, some cb.challenge, [], []⟩
  else if (cb.event.type = "app_mention" ∨ strHasPre cb.event.channel "D" = true)
      ∧ cb.event.botID = "" then
    let userID := cb.event.user
    let channelID := cb.event.channel
    let text := eventText cb.event
    match storeLookup store userID with
    | none =>
      ⟨storeInsert store userID ⟨"awaiting_names", [], []⟩, 200, none,
        [(channelID, greetingText)], []⟩
    | some state =>
      if state.step = "awaiting_names" then
        let trimmedNames := parseNames text
        match env.getUsers with
        | Except.error e =>
          ⟨store, 500, none,
            [(channelID, "Error fetching users for matching: " ++ e)], []⟩
        | Except.ok users =>
          let validUsers := filterValid users
          let allValidNames := validUsers.map (fun u => u.realName)
          let r := fuzzyMatch trimmedNames validUsers
          if r.2.2.length > 0 then
            ⟨store, 200, none,
              [(channelID, unmatchedReplyText r.2.2 allValidNames)], []⟩
          else
            ⟨storeInsert store userID ⟨"awaiting_game", r.1, r.2.1⟩, 200, none,
              [(channelID, gameMatchedReplyText r.2.1)], []⟩
      else if state.step = "awaiting_game" then
        let gameName := text
        match env.getUserInfo userID with
        | Except.error e =>
          ⟨storeDelete store userID, 500, none,
            [(channelID, "Error fetching your user info: " ++ e)], []⟩
        | Except.ok info =>
          match env.gemini info.realName state.recipientUserNames gameName with
          | Except.error e =>
            ⟨storeDelete store userID, 500, none,
              [(channelID, "Error generating invitation: " ++ e)], []⟩
          | Except.ok invitation =>
            let sendErrors := collectSendErrors env.post state.recipientUserIDs
            ⟨storeDelete store userID, 200, none,
              [(channelID,
                if sendErrors.length > 0 then inviteFailText sendErrors
                else inviteSuccessText)],
              state.recipientUserIDs.map (fun rid => (rid, invitation))⟩
      else
        ⟨store, 200, none, [], []⟩
  else
    ⟨store, 200, none, [], []⟩

end Game

/-! ### The `/invite` API fan-out (`handler.go`, `SendInvite`) -/

/-- The error collection of `SendInvite`: each failing concurrent
`PostMessage` contributes `fmt.Errorf("failed to send invitation to user %s:
%w", uid, err)` to the error channel.  Goroutine completion order is
unspecified; the collected errors are listed here in request order (one
admissible interleaving), which fixes the multiset of error descriptions. -/
def inviteErrors (post : String → Option String) (userIDs : List String) :
    List String :=
  userIDs.filterMap (fun uid =>
    (post uid).map (fun e => "failed to send invitation to user " ++ uid ++ ": " ++ e))

/-! ### Store invariant and concrete test fixtures -/

/-- The recipient-list invariant of the conversation store: every stored
state at the payload step carries a non-empty recipient list. -/
def goodStore (store : List (String × ConversationState)) : Prop :=
  ∀ k st, storeLookup store k = some st → st.step = "awaiting_question" →
    st.recipientUserIDs ≠ []

/-- The directory of the specification's worked example. -/
def exampleDirectory : List SlackUser :=
  [⟨"U1", "chris99", "Chris Lee", false, false⟩,
   ⟨"U2", "connor_b", "Connor Brown", false, false⟩]

/-- Environment whose directory fetch fails. -/
def dirFailEnv : HandlerEnv := ⟨Except.error "boom", fun _ => none⟩

/-- Environment whose directory fetch succeeds and in which every delivery
fails with the description "boom". -/
def postFailEnv : HandlerEnv := ⟨Except.ok exampleDirectory, fun _ => some "boom"⟩

/-- Environment in which every call succeeds. -/
def okEnv : HandlerEnv := ⟨Except.ok exampleDirectory, fun _ => none⟩

/-- A direct-message event from user "U7" in channel "D123" carrying the
given text. -/
def dmCallback (text : String) : SlackEventCallback :=
  ⟨"tok", "event_callback", "", ⟨"message", "U7", text, "D123", ""⟩⟩

/-- A handshake-verification payload with challenge "c4f3". -/
def urlVerifyCallback : SlackEventCallback :=
  ⟨"tok", "url_verification", "c4f3", ⟨"", "", "", "", ""⟩⟩

/-- A bot-originated event (non-empty `bot_id`). -/
def botCallback : SlackEventCallback :=
  ⟨"tok", "event_callback", "", ⟨"message", "U7", "hello", "D123", "B42"⟩⟩

/-- Store with user "U7" at the names step. -/
def namesStore : List (String × ConversationState) :=
  [("U7", ⟨"awaiting_names", []⟩)]

/-- Store with user "U7" at the question step with one resolved recipient. -/
def questionStore : List (String × ConversationState) :=
  [("U7", ⟨"awaiting_question", ["U1"]⟩)]

/-- Store with user "U7" at the question step with no recipients (as the
superseded handler variant could produce). -/
def questionStoreEmpty : List (String × ConversationState) :=
  [("U7", ⟨"awaiting_question", []⟩)]

namespace Game

/-- Store with user "U7" at the game step of the composer variant. -/
def gameStore : List (String × ConversationState) :=
  [("U7", ⟨"awaiting_game", ["U1"], ["Chris Lee"]⟩)]

/-- Composer-variant environment whose `callGoogleGemini` call fails with
"provider error" and whose other collaborators succeed. -/
def composerFailEnv : Env :=
  ⟨Except.ok exampleDirectory,
   fun _ => Except.ok ⟨"U7", "alex", "Alex Gray", false, false⟩,
   fun _ _ _ => Except.error "provider error",
   fun _ => none⟩

end Game

/-! ## Theorems -/

/-! ### Matcher characterization lemmas -/

theorem fuzzyMatch_eq (frags : List String) (users : List SlackUser) :
    fuzzyMatch frags users =
      (frags.filterMap
        (fun n => (users.find? (fun u => userMatches u n)).map (fun u => u.id)),
       frags.filterMap
        (fun n => (users.find? (fun u => userMatches u n)).map (fun u => u.realName)),
       frags.filter (fun n => (users.find? (fun u => userMatches u n)).isNone)) := by
  induction frags with
  | nil => rfl
  | cons n ns ih =>
    simp only [fuzzyMatch, ih]
    cases h : users.find? (fun u => userMatches u n) <;>
      simp [h, List.filterMap_cons, List.filter_cons]

theorem fuzzyMatch_lengths (frags : List String) (users : List SlackUser) :
    (fuzzyMatch frags users).1.length + (fuzzyMatch frags users).2.2.length
        = frags.length ∧
      (fuzzyMatch frags users).1.length = (fuzzyMatch frags users).2.1.length := by
  induction frags with
  | nil => simp [fuzzyMatch]
  | cons n ns ih =>
    simp only [fuzzyMatch]
    cases h : users.find? (fun u => userMatches u n) <;>
      simp only [h, List.length_cons] <;> omega

theorem splitChars_ne_nil (sep : Char) (l : List Char) : splitChars sep l ≠ [] := by
  cases l with
  | nil => simp [splitChars]
  | cons c cs =>
    simp only [splitChars]
    split
    · simp
    · split <;> simp

theorem parseNames_ne_nil (text : String) : parseNames text ≠ [] := by
  simp only [parseNames, goSplit, ne_eq, List.map_eq_nil_iff]
  exact splitChars_ne_nil ',' text.data

/-! ### Conversation-store lemmas -/

theorem storeLookup_insert_self {σ : Type} (store : List (String × σ)) (k : String)
    (v : σ) : storeLookup (storeInsert store k v) k = some v := by
  simp [storeLookup, storeInsert, List.find?_cons]

theorem find?_filter_ne {σ : Type} (store : List (String × σ))
    (k k' : String) (h : k' ≠ k) :
    List.find? (fun p => p.1 = k') (store.filter (fun p => ¬ p.1 = k)) =
      List.find? (fun p => p.1 = k') store := by
  induction store with
  | nil => rfl
  | cons p ps ih =>
    by_cases hp : p.1 = k
    · rw [List.filter_cons_of_neg (by simpa using hp),
        List.find?_cons_of_neg _ (by simp [hp]; exact fun e => h e.symm),
        ih]
    · rw [List.filter_cons_of_pos (by simpa using hp)]
      by_cases hk' : p.1 = k'
      · rw [List.find?_cons_of_pos _ (by simpa using hk'),
          List.find?_cons_of_pos _ (by simpa using hk')]
      · rw [List.find?_cons_of_neg _ (by simpa using hk'),
          List.find?_cons_of_neg _ (by simpa using hk'), ih]

theorem storeLookup_insert_other {σ : Type} (store : List (String × σ))
    (k k' : String) (v : σ) (h : k' ≠ k) :
    storeLookup (storeInsert store k v) k' = storeLookup store k' := by
  simp only [storeLookup, storeInsert]
  rw [List.find?_cons_of_neg _ (by simp; exact fun e => h e.symm),
    find?_filter_ne store k k' h]

theorem storeLookup_delete_self {σ : Type} (store : List (String × σ))
    (k : String) : storeLookup (storeDelete store k) k = none := by
  have hnone :
      List.find? (fun p => p.1 = k) (store.filter (fun p => ¬ p.1 = k)) = none := by
    rw [List.find?_eq_none]
    intro p hp
    rcases List.mem_filter.mp hp with ⟨_, hkeep⟩
    simpa using of_decide_eq_true hkeep
  simp only [storeLookup, storeDelete, hnone, Option.map_none']

theorem storeLookup_delete_other {σ : Type} (store : List (String × σ))
    (k k' : String) (h : k' ≠ k) :
    storeLookup (storeDelete store k) k' = storeLookup store k' := by
  simp only [storeLookup, storeDelete]
  rw [find?_filter_ne store k k' h]

/-! ### Branch lemmas for `handleEvent` -/

theorem handleEvent_url (env : HandlerEnv)
    (store : List (String × ConversationState)) (cb : SlackEventCallback)
    (h : cb.type = "url_verification") :
    handleEvent env store cb = ⟨store, 200, some cb.challenge, [], []⟩ := by
  simp [handleEvent, h]

theorem handleEvent_skip (env : HandlerEnv)
    (store : List (String × ConversationState)) (cb : SlackEventCallback)
    (h1 : cb.type ≠ "url_verification")
    (h2 : ¬((cb.event.type = "app_mention" ∨ strHasPre cb.event.channel "D" = true)
      ∧ cb.event.botID = "")) :
    handleEvent env store cb = ⟨store, 200, none, [], []⟩ := by
  simp only [handleEvent]
  rw [if_neg h1, if_neg h2]

theorem handleEvent_new (env : HandlerEnv)
    (store : List (String × ConversationState)) (cb : SlackEventCallback)
    (h1 : cb.type ≠ "url_verification")
    (hk : cb.event.type = "app_mention" ∨ strHasPre cb.event.channel "D" = true)
    (hb : cb.event.botID = "")
    (hlk : storeLookup store cb.event.user = none) :
    handleEvent env store cb =
      ⟨storeInsert store cb.event.user ⟨"awaiting_names", []⟩, 200, none,
        [(cb.event.channel, greetingText)], []⟩ := by
  simp only [handleEvent]
  rw [if_neg h1, if_pos ⟨hk, hb⟩, hlk]

theorem handleEvent_names_error (env : HandlerEnv)
    (store : List (String × ConversationState)) (cb : SlackEventCallback)
    (st : ConversationState) (e : String)
    (h1 : cb.type ≠ "url_verification")
    (hk : cb.event.type = "app_mention" ∨ strHasPre cb.event.channel "D" = true)
    (hb : cb.event.botID = "")
    (hlk : storeLookup store cb.event.user = some st)
    (hstep : st.step = "awaiting_names")
    (hu : env.getUsers = Except.error e) :
    handleEvent env store cb =
      ⟨store, 500, none,
        [(cb.event.channel, "Error fetching users for matching: " ++ e)], []⟩ := by
  simp only [handleEvent]
  rw [if_neg h1, if_pos ⟨hk, hb⟩, hlk]
  simp only [if_pos hstep, hu]

theorem handleEvent_names_unmatched (env : HandlerEnv)
    (store : List (String × ConversationState)) (cb : SlackEventCallback)
    (st : ConversationState) (users : List SlackUser)
    (h1 : cb.type ≠ "url_verification")
    (hk : cb.event.type = "app_mention" ∨ strHasPre cb.event.channel "D" = true)
    (hb : cb.event.botID = "")
    (hlk : storeLookup store cb.event.user = some st)
    (hstep : st.step = "awaiting_names")
    (hu : env.getUsers = Except.ok users)
    (hunm : 0 < (fuzzyMatch (parseNames (eventText cb.event))
      (filterValid users)).2.2.length) :
    handleEvent env store cb =
      ⟨store, 200, none,
        [(cb.event.channel,
          unmatchedReplyText
            (fuzzyMatch (parseNames (eventText cb.event)) (filterValid users)).2.2
            ((filterValid users).map (fun u => u.realName)))], []⟩ := by
  simp only [handleEvent]
  rw [if_neg h1, if_pos ⟨hk, hb⟩, hlk]
  simp only [if_pos hstep, hu]
  rw [if_pos hunm]

theorem handleEvent_names_matched (env : HandlerEnv)
    (store : List (String × ConversationState)) (cb : SlackEventCallback)
    (st : ConversationState) (users : List SlackUser)
    (h1 : cb.type ≠ "url_verification")
    (hk : cb.event.type = "app_mention" ∨ strHasPre cb.event.channel "D" = true)
    (hb : cb.event.botID = "")
    (hlk : storeLookup store cb.event.user = some st)
    (hstep : st.step = "awaiting_names")
    (hu : env.getUsers = Except.ok users)
    (hm : ¬ 0 < (fuzzyMatch (parseNames (eventText cb.event))
      (filterValid users)).2.2.length) :
    handleEvent env store cb =
      ⟨storeInsert store cb.event.user
        ⟨"awaiting_question",
          (fuzzyMatch (parseNames (eventText cb.event)) (filterValid users)).1⟩,
        200, none,
        [(cb.event.channel,
          matchedReplyText
            (fuzzyMatch (parseNames (eventText cb.event)) (filterValid users)).2.1)],
        []⟩ := by
  simp only [handleEvent]
  rw [if_neg h1, if_pos ⟨hk, hb⟩, hlk]
  simp only [if_pos hstep, hu]
  rw [if_neg hm]

theorem handleEvent_question (env : HandlerEnv)
    (store : List (String × ConversationState)) (cb : SlackEventCallback)
    (st : ConversationState)
    (h1 : cb.type ≠ "url_verification")
    (hk : cb.event.type = "app_mention" ∨ strHasPre cb.event.channel "D" = true)
    (hb : cb.event.botID = "")
    (hlk : storeLookup store cb.event.user = some st)
    (hstep : st.step = "awaiting_question") :
    handleEvent env store cb =
      ⟨storeDelete store cb.event.user, 200, none,
        [(cb.event.channel,
          if 0 < (collectSendErrors env.post st.recipientUserIDs).length then
            questionFailText (collectSendErrors env.post st.recipientUserIDs)
          else questionSuccessText)],
        st.recipientUserIDs.map (fun rid => (rid, eventText cb.event))⟩ := by
  have hne : ¬ st.step = "awaiting_names" := by rw [hstep]; decide
  simp only [handleEvent]
  rw [if_neg h1, if_pos ⟨hk, hb⟩, hlk]
  simp only [if_neg hne, if_pos hstep]

theorem handleEvent_other_step (env : HandlerEnv)
    (store : List (String × ConversationState)) (cb : SlackEventCallback)
    (st : ConversationState)
    (h1 : cb.type ≠ "url_verification")
    (hk : cb.event.type = "app_mention" ∨ strHasPre cb.event.channel "D" = true)
    (hb : cb.event.botID = "")
    (hlk : storeLookup store cb.event.user = some st)
    (hs1 : ¬ st.step = "awaiting_names")
    (hs2 : ¬ st.step = "awaiting_question") :
    handleEvent env store cb = ⟨store, 200, none, [], []⟩ := by
  simp only [handleEvent]
  rw [if_neg h1, if_pos ⟨hk, hb⟩, hlk]
  simp only [if_neg hs1, if_neg hs2]

/-! ### Generic option-list helpers -/

theorem length_filterMap_all_some {α β : Type} (f : α → Option β) (l : List α)
    (h : ∀ a ∈ l, (f a).isSome = true) : (l.filterMap f).length = l.length := by
  induction l with
  | nil => rfl
  | cons a as ih =>
    rcases Option.isSome_iff_exists.mp (h a (List.mem_cons_self a as)) with ⟨b, hb⟩
    simp only [List.filterMap_cons, hb, List.length_cons]
    exact congrArg Nat.succ (ih fun x hx => h x (List.mem_cons_of_mem a hx))

theorem filter_isNone_all_some {α β : Type} (f : α → Option β) (l : List α)
    (h : ∀ a ∈ l, (f a).isSome = true) :
    l.filter (fun a => (f a).isNone) = [] := by
  rw [List.filter_eq_nil_iff]
  intro a ha
  have hs := h a ha
  cases hfa : f a with
  | none => rw [hfa] at hs; simp at hs
  | some b => simp [hfa]

/-! ### Claim theorems -/

/-- C1: For every list of input fragments and every bot-and-deleted-filtered
directory snapshot in which each fragment case-insensitively
substring-matches some entry's handle or display name, the matcher returns
zero unmatched entries and matched identifier/display-name sequences of the
same length as the input, each fragment bound (order-preservingly) to the
first matching entry in directory order; and on the worked example —
directory `[{U1, chris99, Chris Lee}, {U2, connor_b, Connor Brown}]`, input
`"chris,connor"` — the matched output is
`[("U1", "Chris Lee"), ("U2", "Connor Brown")]` with no unmatched names. -/
theorem matcher_first_match_correct :
    (∀ (frags : List String) (validUsers : List SlackUser),
      (∀ n ∈ frags,
        (validUsers.find? (fun u => userMatches u n)).isSome = true) →
      (fuzzyMatch frags validUsers).2.2 = [] ∧
      (fuzzyMatch frags validUsers).1.length = frags.length ∧
      (fuzzyMatch frags validUsers).2.1.length = frags.length ∧
      (fuzzyMatch frags validUsers).1 = frags.filterMap
        (fun n => (validUsers.find? (fun u => userMatches u n)).map
          (fun u => u.id)) ∧
      (fuzzyMatch frags validUsers).2.1 = frags.filterMap
        (fun n => (validUsers.find? (fun u => userMatches u n)).map
          (fun u => u.realName))) ∧
    ((fuzzyMatch (parseNames "chris,connor") (filterValid exampleDirectory)).1.zip
        (fuzzyMatch (parseNames "chris,connor") (filterValid exampleDirectory)).2.1
      = [("U1", "Chris Lee"), ("U2", "Connor Brown")] ∧
      (fuzzyMatch (parseNames "chris,connor")
        (filterValid exampleDirectory)).2.2 = []) := by
  constructor
  · intro frags validUsers h
    have heq := fuzzyMatch_eq frags validUsers
    have hid : ∀ n ∈ frags,
        ((validUsers.find? (fun u => userMatches u n)).map
          (fun u => u.id)).isSome = true := by
      intro n hn
      have hs := h n hn
      cases hfa : validUsers.find? (fun u => userMatches u n) with
      | none => rw [hfa] at hs; simp at hs
      | some u => simp [hfa]
    have hrn : ∀ n ∈ frags,
        ((validUsers.find? (fun u => userMatches u n)).map
          (fun u => u.realName)).isSome = true := by
      intro n hn
      have hs := h n hn
      cases hfa : validUsers.find? (fun u => userMatches u n) with
      | none => rw [hfa] at hs; simp at hs
      | some u => simp [hfa]
    refine ⟨?_, ?_, ?_, ?_, ?_⟩
    · rw [heq]
      exact filter_isNone_all_some _ frags h
    · rw [heq]
      exact length_filterMap_all_some _ frags hid
    · rw [heq]
      exact length_filterMap_all_some _ frags hrn
    · rw [heq]
    · rw [heq]
  · exact ⟨by decide, by decide⟩

/-- Witness for C1 at the concrete input `["chris", "connor"]` against the
filtered example directory. -/
theorem matcher_first_match_correct_witness :
    (fuzzyMatch ["chris", "connor"] (filterValid exampleDirectory)).2.2 = [] :=
  (matcher_first_match_correct.1 ["chris", "connor"]
    (filterValid exampleDirectory) (by decide)).1

/-- C10: Each input fragment contributes to exactly one of the matcher's two
outputs — the matched (identifier, display-name) columns for fragments whose
first-match lookup succeeds, the unmatched list otherwise — both
order-preserving restrictions of the input; hence matched length plus
unmatched length equals the input length, and the two matched columns have
equal length. -/
theorem matcher_output_partition (frags : List String)
    (users : List SlackUser) :
    (fuzzyMatch frags users).1 = frags.filterMap
      (fun n => (users.find? (fun u => userMatches u n)).map (fun u => u.id)) ∧
    (fuzzyMatch frags users).2.1 = frags.filterMap
      (fun n => (users.find? (fun u => userMatches u n)).map
        (fun u => u.realName)) ∧
    (fuzzyMatch frags users).2.2 = frags.filter
      (fun n => (users.find? (fun u => userMatches u n)).isNone) ∧
    (fuzzyMatch frags users).1.length + (fuzzyMatch frags users).2.2.length
      = frags.length ∧
    (fuzzyMatch frags users).1.length = (fuzzyMatch frags users).2.1.length := by
  have heq := fuzzyMatch_eq frags users
  have hlen := fuzzyMatch_lengths frags users
  exact ⟨by rw [heq], by rw [heq], by rw [heq], hlen.1, hlen.2⟩

theorem collectSendErrors_eq_filterMap (post : String → Option String)
    (rids : List String) :
    collectSendErrors post rids = rids.filterMap post := by
  induction rids with
  | nil => rfl
  | cons r rs ih =>
    cases h : post r <;> simp [collectSendErrors, h, ih, List.filterMap_cons]

theorem collectSendErrors_length (post : String → Option String)
    (rids : List String) :
    (collectSendErrors post rids).length =
      (rids.filter (fun r => (post r).isSome)).length := by
  induction rids with
  | nil => rfl
  | cons r rs ih =>
    cases h : post r <;> simp [collectSendErrors, h, List.filter_cons, ih]

theorem matched_ids_ne_nil (text : String) (users : List SlackUser)
    (hm : (fuzzyMatch (parseNames text) (filterValid users)).2.2.length = 0) :
    (fuzzyMatch (parseNames text) (filterValid users)).1 ≠ [] := by
  have hlen := (fuzzyMatch_lengths (parseNames text) (filterValid users)).1
  intro h0
  rw [h0] at hlen
  simp only [List.length_nil, Nat.zero_add, hm] at hlen
  exact parseNames_ne_nil text (List.length_eq_zero.mp hlen.symm)

/-- C2: Every `ConversationState` reaching the payload step
(`"awaiting_question"`) has a non-empty recipient list; a fresh user
identifier always begins at `"awaiting_names"`; the payload step is only
reachable through a names submission in which every fragment matched; and
after a payload-step event the state is removed from the store regardless of
delivery outcome.  (The state is absent before first contact by definition:
that is the `none` lookup of the second conjunct.) -/
theorem conversation_state_invariants (env : HandlerEnv)
    (store : List (String × ConversationState)) (cb : SlackEventCallback) :
    (goodStore store → goodStore (handleEvent env store cb).store) ∧
    (cb.type ≠ "url_verification" →
      (cb.event.type = "app_mention" ∨ strHasPre cb.event.channel "D" = true) →
      cb.event.botID = "" →
      storeLookup store cb.event.user = none →
      storeLookup (handleEvent env store cb).store cb.event.user =
        some ⟨"awaiting_names", []⟩) ∧
    (∀ k st', storeLookup (handleEvent env store cb).store k = some st' →
      st'.step = "awaiting_question" →
      storeLookup store k = some st' ∨
      (k = cb.event.user ∧ cb.type ≠ "url_verification" ∧
        (cb.event.type = "app_mention" ∨ strHasPre cb.event.channel "D" = true) ∧
        cb.event.botID = "" ∧
        ∃ st users, storeLookup store k = some st ∧
          st.step = "awaiting_names" ∧ env.getUsers = Except.ok users ∧
          (fuzzyMatch (parseNames (eventText cb.event))
            (filterValid users)).2.2 = [] ∧
          st' = ⟨"awaiting_question",
            (fuzzyMatch (parseNames (eventText cb.event))
              (filterValid users)).1⟩)) ∧
    (∀ st, cb.type ≠ "url_verification" →
      (cb.event.type = "app_mention" ∨ strHasPre cb.event.channel "D" = true) →
      cb.event.botID = "" →
      storeLookup store cb.event.user = some st →
      st.step = "awaiting_question" →
      storeLookup (handleEvent env store cb).store cb.event.user = none) := by
  refine ⟨?_, ?_, ?_, ?_⟩
  · -- recipient-list invariant is preserved by every event
    intro hg
    by_cases hv : cb.type = "url_verification"
    · rw [handleEvent_url env store cb hv]; exact hg
    · by_cases hc : (cb.event.type = "app_mention" ∨
          strHasPre cb.event.channel "D" = true) ∧ cb.event.botID = ""
      · obtain ⟨hk, hb⟩ := hc
        cases hlk : storeLookup store cb.event.user with
        | none =>
          rw [handleEvent_new env store cb hv hk hb hlk]
          intro k st hlk2 hstep2
          by_cases hk2 : k = cb.event.user
          · subst hk2
            rw [storeLookup_insert_self] at hlk2
            injection hlk2 with h2
            subst h2
            exact absurd hstep2 (by decide)
          · rw [storeLookup_insert_other _ _ _ _ hk2] at hlk2
            exact hg k st hlk2 hstep2
        | some st =>
          by_cases hs1 : st.step = "awaiting_names"
          · cases hu : env.getUsers with
            | error e =>
              rw [handleEvent_names_error env store cb st e hv hk hb hlk hs1 hu]
              exact hg
            | ok users =>
              by_cases hunm : 0 < (fuzzyMatch (parseNames (eventText cb.event))
                  (filterValid users)).2.2.length
              · rw [handleEvent_names_unmatched env store cb st users hv hk hb
                  hlk hs1 hu hunm]
                exact hg
              · rw [handleEvent_names_matched env store cb st users hv hk hb
                  hlk hs1 hu hunm]
                intro k st' hlk2 hstep2
                by_cases hk2 : k = cb.event.user
                · subst hk2
                  rw [storeLookup_insert_self] at hlk2
                  injection hlk2 with h2
                  subst h2
                  have hm0 : (fuzzyMatch (parseNames (eventText cb.event))
                      (filterValid users)).2.2.length = 0 := by omega
                  exact matched_ids_ne_nil (eventText cb.event) users hm0
                · rw [storeLookup_insert_other _ _ _ _ hk2] at hlk2
                  exact hg k st' hlk2 hstep2
          · by_cases hs2 : st.step = "awaiting_question"
            · rw [handleEvent_question env store cb st hv hk hb hlk hs2]
              intro k st' hlk2 hstep2
              by_cases hk2 : k = cb.event.user
              · subst hk2
                rw [storeLookup_delete_self] at hlk2
                cases hlk2
              · rw [storeLookup_delete_other _ _ _ hk2] at hlk2
                exact hg k st' hlk2 hstep2
            · rw [handleEvent_other_step env store cb st hv hk hb hlk hs1 hs2]
              exact hg
      · rw [handleEvent_skip env store cb hv hc]; exact hg
  · -- a fresh user starts at the names step
    intro hv hk hb hlk
    rw [handleEvent_new env store cb hv hk hb hlk]
    exact storeLookup_insert_self store cb.event.user ⟨"awaiting_names", []⟩
  · -- the payload step is only reachable via a fully matched submission
    intro k st' hlk2 hstep2
    by_cases hv : cb.type = "url_verification"
    · rw [handleEvent_url env store cb hv] at hlk2; exact Or.inl hlk2
    · by_cases hc : (cb.event.type = "app_mention" ∨
          strHasPre cb.event.channel "D" = true) ∧ cb.event.botID = ""
      · obtain ⟨hk, hb⟩ := hc
        cases hlk : storeLookup store cb.event.user with
        | none =>
          rw [handleEvent_new env store cb hv hk hb hlk] at hlk2
          by_cases hk2 : k = cb.event.user
          · subst hk2
            rw [storeLookup_insert_self] at hlk2
            injection hlk2 with h2
            subst h2
            exact absurd hstep2 (by decide)
          · rw [storeLookup_insert_other _ _ _ _ hk2] at hlk2
            exact Or.inl hlk2
        | some st =>
          by_cases hs1 : st.step = "awaiting_names"
          · cases hu : env.getUsers with
            | error e =>
              rw [handleEvent_names_error env store cb st e hv hk hb hlk hs1 hu]
                at hlk2
              exact Or.inl hlk2
            | ok users =>
              by_cases hunm : 0 < (fuzzyMatch (parseNames (eventText cb.event))
                  (filterValid users)).2.2.length
              · rw [handleEvent_names_unmatched env store cb st users hv hk hb
                  hlk hs1 hu hunm] at hlk2
                exact Or.inl hlk2
              · rw [handleEvent_names_matched env store cb st users hv hk hb
                  hlk hs1 hu hunm] at hlk2
                by_cases hk2 : k = cb.event.user
                · subst hk2
                  rw [storeLookup_insert_self] at hlk2
                  injection hlk2 with h2
                  refine Or.inr ⟨rfl, hv, hk, hb, st, users, hlk, hs1, rfl,
                    List.length_eq_zero.mp (by omega), h2.symm⟩
                · rw [storeLookup_insert_other _ _ _ _ hk2] at hlk2
                  exact Or.inl hlk2
          · by_cases hs2 : st.step = "awaiting_question"
            · rw [handleEvent_question env store cb st hv hk hb hlk hs2] at hlk2
              by_cases hk2 : k = cb.event.user
              · subst hk2
                rw [storeLookup_delete_self] at hlk2
                cases hlk2
              · rw [storeLookup_delete_other _ _ _ hk2] at hlk2
                exact Or.inl hlk2
            · rw [handleEvent_other_step env store cb st hv hk hb hlk hs1 hs2]
                at hlk2
              exact Or.inl hlk2
      · rw [handleEvent_skip env store cb hv hc] at hlk2; exact Or.inl hlk2
  · -- a payload-step event always removes the state
    intro st hv hk hb hlk hstep
    rw [handleEvent_question env store cb st hv hk hb hlk hstep]
    exact storeLookup_delete_self store cb.event.user

/-- Witness for C2 at a concrete payload-step event: user "U7" at
`"awaiting_question"` is removed from the store. -/
theorem conversation_state_invariants_witness :
    storeLookup (handleEvent okEnv questionStore (dmCallback "hi")).store
      (dmCallback "hi").event.user = none :=
  (conversation_state_invariants okEnv questionStore (dmCallback "hi")).2.2.2
    ⟨"awaiting_question", ["U1"]⟩ (by decide) (by decide) (by decide)
    (by decide) (by decide)

/-- C3: For every recipient-step input with at least one unmatched fragment,
the store (and hence the user's dialogue state and its fields) is unchanged,
the event is acknowledged with 200, and the single emitted reply lists
exactly the unmatched fragments together with the complete valid
display-name list. -/
theorem unmatched_names_reprompt (env : HandlerEnv)
    (store : List (String × ConversationState)) (cb : SlackEventCallback)
    (st : ConversationState) (users : List SlackUser)
    (h1 : cb.type ≠ "url_verification")
    (hk : cb.event.type = "app_mention" ∨ strHasPre cb.event.channel "D" = true)
    (hb : cb.event.botID = "")
    (hlk : storeLookup store cb.event.user = some st)
    (hstep : st.step = "awaiting_names")
    (hu : env.getUsers = Except.ok users)
    (hunm : (fuzzyMatch (parseNames (eventText cb.event))
      (filterValid users)).2.2 ≠ []) :
    (handleEvent env store cb).store = store ∧
    storeLookup (handleEvent env store cb).store cb.event.user = some st ∧
    (handleEvent env store cb).channelMessages =
      [(cb.event.channel,
        unmatchedReplyText
          (fuzzyMatch (parseNames (eventText cb.event)) (filterValid users)).2.2
          ((filterValid users).map (fun u => u.realName)))] ∧
    (handleEvent env store cb).status = 200 := by
  have hpos : 0 < (fuzzyMatch (parseNames (eventText cb.event))
      (filterValid users)).2.2.length := List.length_pos.mpr hunm
  rw [handleEvent_names_unmatched env store cb st users h1 hk hb hlk hstep hu hpos]
  exact ⟨rfl, hlk, rfl, rfl⟩

/-- Witness for C3 at the concrete input "dave" (matching nothing in the
example directory): the store is unchanged. -/
theorem unmatched_names_reprompt_witness :
    (handleEvent okEnv namesStore (dmCallback "dave")).store = namesStore :=
  (unmatched_names_reprompt okEnv namesStore (dmCallback "dave")
    ⟨"awaiting_names", []⟩ exampleDirectory (by decide) (by decide) (by decide)
    (by decide) (by decide) rfl (by decide)).1

/-- C4: For every payload-step delivery to the stored recipient identifiers,
the collected error sequence has exactly one entry per failing recipient
(all failures collected, no fail-fast), the initiating user's state is
removed from the store whatever the per-recipient outcomes, and with zero
recipients the error sequence is empty and the success reply is emitted. -/
theorem fanout_outcome (env : HandlerEnv)
    (store : List (String × ConversationState)) (cb : SlackEventCallback)
    (st : ConversationState)
    (h1 : cb.type ≠ "url_verification")
    (hk : cb.event.type = "app_mention" ∨ strHasPre cb.event.channel "D" = true)
    (hb : cb.event.botID = "")
    (hlk : storeLookup store cb.event.user = some st)
    (hstep : st.step = "awaiting_question") :
    storeLookup (handleEvent env store cb).store cb.event.user = none ∧
    (collectSendErrors env.post st.recipientUserIDs).length =
      (st.recipientUserIDs.filter (fun r => (env.post r).isSome)).length ∧
    (handleEvent env store cb).channelMessages =
      [(cb.event.channel,
        if 0 < (collectSendErrors env.post st.recipientUserIDs).length then
          questionFailText (collectSendErrors env.post st.recipientUserIDs)
        else questionSuccessText)] ∧
    (st.recipientUserIDs = [] →
      collectSendErrors env.post st.recipientUserIDs = [] ∧
      (handleEvent env store cb).channelMessages =
        [(cb.event.channel, questionSuccessText)]) := by
  rw [handleEvent_question env store cb st h1 hk hb hlk hstep]
  refine ⟨storeLookup_delete_self store cb.event.user,
    collectSendErrors_length env.post st.recipientUserIDs, rfl, ?_⟩
  intro h0
  rw [h0]
  exact ⟨rfl, rfl⟩

/-- Witness for C4 at a concrete payload-step event with one recipient whose
delivery fails: the state is removed from the store. -/
theorem fanout_outcome_witness :
    storeLookup (handleEvent postFailEnv questionStore (dmCallback "what")).store
      (dmCallback "what").event.user = none :=
  (fanout_outcome postFailEnv questionStore (dmCallback "what")
    ⟨"awaiting_question", ["U1"]⟩ (by decide) (by decide) (by decide)
    (by decide) (by decide)).1

/-- C5 counterexample: an inbound event whose payload parses successfully
but whose directory fetch fails is answered with HTTP 500, not with the
successful acknowledgement the claim promises for every parsed payload. -/
theorem ack_always_200_counterexample :
    (handleRequest dirFailEnv namesStore (Except.ok (dmCallback "chris"))).status
        = 500 ∧
    ¬ (handleRequest dirFailEnv namesStore
        (Except.ok (dmCallback "chris"))).status = 200 := by
  exact ⟨by decide, by decide⟩

/-- C5 (amended): a malformed payload is answered with HTTP 400; a parsed
payload is answered with HTTP 200 except when the user is at the names step
and the directory fetch fails, in which case the handler returns HTTP 500
(so the status is always 200 or 500 for every parsed payload, and always 200
whenever the directory fetch succeeds). -/
theorem ack_status_characterization (env : HandlerEnv)
    (store : List (String × ConversationState)) :
    (∀ e, (handleRequest env store (Except.error e)).status = 400) ∧
    (∀ cb, (handleRequest env store (Except.ok cb)).status = 200 ∨
      (handleRequest env store (Except.ok cb)).status = 500) ∧
    (∀ cb users, env.getUsers = Except.ok users →
      (handleRequest env store (Except.ok cb)).status = 200) ∧
    (∀ cb st e, cb.type ≠ "url_verification" →
      (cb.event.type = "app_mention" ∨ strHasPre cb.event.channel "D" = true) →
      cb.event.botID = "" →
      storeLookup store cb.event.user = some st →
      st.step = "awaiting_names" →
      env.getUsers = Except.error e →
      (handleRequest env store (Except.ok cb)).status = 500) := by
  have hstat : ∀ cb : SlackEventCallback,
      (handleRequest env store (Except.ok cb)).status = 200 ∨
      ((handleRequest env store (Except.ok cb)).status = 500 ∧
        ∃ st e, cb.type ≠ "url_verification" ∧
          (cb.event.type = "app_mention" ∨
            strHasPre cb.event.channel "D" = true) ∧
          cb.event.botID = "" ∧
          storeLookup store cb.event.user = some st ∧
          st.step = "awaiting_names" ∧ env.getUsers = Except.error e) := by
    intro cb
    show (handleEvent env store cb).status = 200 ∨ _
    by_cases hv : cb.type = "url_verification"
    · rw [handleEvent_url env store cb hv]; exact Or.inl rfl
    · by_cases hc : (cb.event.type = "app_mention" ∨
          strHasPre cb.event.channel "D" = true) ∧ cb.event.botID = ""
      · obtain ⟨hk, hb⟩ := hc
        cases hlk : storeLookup store cb.event.user with
        | none =>
          rw [handleEvent_new env store cb hv hk hb hlk]; exact Or.inl rfl
        | some st =>
          by_cases hs1 : st.step = "awaiting_names"
          · cases hu : env.getUsers with
            | error e =>
              refine Or.inr ⟨?_, st, e, hv, hk, hb, rfl, hs1, rfl⟩
              show (handleEvent env store cb).status = 500
              rw [handleEvent_names_error env store cb st e hv hk hb hlk hs1 hu]
            | ok users =>
              by_cases hunm : 0 < (fuzzyMatch (parseNames (eventText cb.event))
                  (filterValid users)).2.2.length
              · rw [handleEvent_names_unmatched env store cb st users hv hk hb
                  hlk hs1 hu hunm]
                exact Or.inl rfl
              · rw [handleEvent_names_matched env store cb st users hv hk hb
                  hlk hs1 hu hunm]
                exact Or.inl rfl
          · by_cases hs2 : st.step = "awaiting_question"
            · rw [handleEvent_question env store cb st hv hk hb hlk hs2]
              exact Or.inl rfl
            · rw [handleEvent_other_step env store cb st hv hk hb hlk hs1 hs2]
              exact Or.inl rfl
      · rw [handleEvent_skip env store cb hv hc]; exact Or.inl rfl
  refine ⟨fun e => rfl, ?_, ?_, ?_⟩
  · intro cb
    rcases hstat cb with h | h
    · exact Or.inl h
    · exact Or.inr h.1
  · intro cb users hu
    rcases hstat cb with h | h
    · exact h
    · rcases h.2 with ⟨st, e, _, _, _, _, _, he⟩
      rw [hu] at he
      cases he
  · intro cb st e hv hk hb hlk hs1 hu
    show (handleEvent env store cb).status = 500
    rw [handleEvent_names_error env store cb st e hv hk hb hlk hs1 hu]

/-- Witness for C5 (amended) at the concrete directory-fetch failure. -/
theorem ack_status_characterization_witness :
    (handleRequest dirFailEnv namesStore
      (Except.ok (dmCallback "chris"))).status = 500 :=
  (ack_status_characterization dirFailEnv namesStore).2.2.2
    (dmCallback "chris") ⟨"awaiting_names", []⟩ "boom" (by decide) (by decide)
    (by decide) (by decide) (by decide) rfl

/-! ### Substring-embedding lemmas for the invite fan-out errors -/

theorem isPrefixChars_self_append (sub suf : List Char) :
    isPrefixChars sub (sub ++ suf) = true := by
  induction sub with
  | nil => rfl
  | cons a as ih => simp [isPrefixChars, ih]

theorem containsChars_of_isPrefixChars (sub l : List Char)
    (h : isPrefixChars sub l = true) : containsChars sub l = true := by
  cases l with
  | nil =>
    cases sub with
    | nil => rfl
    | cons a as => simp [isPrefixChars] at h
  | cons c rest => simp [containsChars, h]

theorem containsChars_append (pre sub suf : List Char) :
    containsChars sub (pre ++ (sub ++ suf)) = true := by
  induction pre with
  | nil =>
    exact containsChars_of_isPrefixChars _ _ (isPrefixChars_self_append sub suf)
  | cons c cs ih => simp [containsChars, ih]

theorem strContains_embed (pre mid suf : String) :
    strContains (pre ++ mid ++ suf) mid = true := by
  show containsChars mid.data (pre ++ mid ++ suf).data = true
  rw [String.append_assoc, String.data_append, String.data_append]
  exact containsChars_append pre.data mid.data suf.data

/-- C6 counterexample: in the conversation fan-out the aggregated error
descriptions are the raw messenger errors; with recipient "U1" failing with
"boom", the single aggregated description "boom" does not embed the
identifier "U1", so the failing delivery cannot be identified from the
outcome. -/
theorem fanout_error_attribution_counterexample :
    collectSendErrors postFailEnv.post ["U1"] = ["boom"] ∧
    strContains "boom" "U1" = false ∧
    (handleEvent postFailEnv questionStore (dmCallback "what")).channelMessages
      = [("D123", "Failed to send question to some recipients: boom")] := by
  exact ⟨by decide, by decide, by decide⟩

/-- C6 (amended): in the `/invite` API fan-out (`SendInvite`), every
aggregated error description is
`"failed to send invitation to user <uid>: <err>"` for some failing
recipient `uid`, and hence embeds that recipient's identifier; the
conversation-handler fan-out, by contrast, aggregates the raw messenger
errors (`err.Error()`) without adding the recipient identifier. -/
theorem invite_errors_embed_recipient :
    (∀ (post : String → Option String) (uids : List String),
      ∀ e ∈ inviteErrors post uids, ∃ uid ∈ uids, ∃ msg, post uid = some msg ∧
        e = "failed to send invitation to user " ++ uid ++ ": " ++ msg ∧
        strContains e uid = true) ∧
    (∀ (post : String → Option String) (rids : List String),
      collectSendErrors post rids = rids.filterMap post) := by
  constructor
  · intro post uids e he
    rcases List.mem_filterMap.mp he with ⟨uid, huid, hres⟩
    cases hp : post uid with
    | none => rw [hp] at hres; cases hres
    | some msg =>
      rw [hp] at hres
      simp only [Option.map_some'] at hres
      have he2 : ("failed to send invitation to user " ++ uid ++ ": " ++ msg)
          = e := Option.some.inj hres
      refine ⟨uid, huid, msg, hp, he2.symm, ?_⟩
      rw [← he2, String.append_assoc]
      exact strContains_embed "failed to send invitation to user " uid
        (": " ++ msg)
  · exact collectSendErrors_eq_filterMap

/-- Witness for C6 (amended) at a concrete failing invite delivery. -/
theorem invite_errors_embed_recipient_witness :
    ∃ uid ∈ ["U1"], ∃ msg,
      (fun _ => some "boom" : String → Option String) uid = some msg ∧
      "failed to send invitation to user U1: boom" =
        "failed to send invitation to user " ++ uid ++ ": " ++ msg ∧
      strContains "failed to send invitation to user U1: boom" uid = true :=
  invite_errors_embed_recipient.1 (fun _ => some "boom") ["U1"]
    "failed to send invitation to user U1: boom" (by decide)

/-- C7: In the composer-generated variant, a composer failure at the payload
step is fatal and atomic: the dialogue state is deleted from the store, the
single emitted reply surfaces the composer error, and no delivery to any
recipient is attempted. -/
theorem composer_failure_aborts (env : Game.Env)
    (store : List (String × Game.ConversationState)) (cb : SlackEventCallback)
    (st : Game.ConversationState) (info : SlackUser) (e : String)
    (h1 : cb.type ≠ "url_verification")
    (hk : cb.event.type = "app_mention" ∨ strHasPre cb.event.channel "D" = true)
    (hb : cb.event.botID = "")
    (hlk : storeLookup store cb.event.user = some st)
    (hstep : st.step = "awaiting_game")
    (hinfo : env.getUserInfo cb.event.user = Except.ok info)
    (hgem : env.gemini info.realName st.recipientUserNames (eventText cb.event)
      = Except.error e) :
    Game.handleEvent env store cb =
      ⟨storeDelete store cb.event.user, 500, none,
        [(cb.event.channel, "Error generating invitation: " ++ e)], []⟩ ∧
    storeLookup (Game.handleEvent env store cb).store cb.event.user = none ∧
    (Game.handleEvent env store cb).recipientMessages = [] := by
  have hne : ¬ st.step = "awaiting_names" := by rw [hstep]; decide
  have heq : Game.handleEvent env store cb =
      ⟨storeDelete store cb.event.user, 500, none,
        [(cb.event.channel, "Error generating invitation: " ++ e)], []⟩ := by
    simp only [Game.handleEvent]
    rw [if_neg h1, if_pos ⟨hk, hb⟩, hlk]
    simp only [if_neg hne, if_pos hstep, hinfo, hgem]
  refine ⟨heq, ?_, by rw [heq]⟩
  rw [heq]
  exact storeLookup_delete_self store cb.event.user

/-- Witness for C7: the spec's example — payload "csgo", composer
unavailable — deletes the state of user "U7". -/
theorem composer_failure_aborts_witness :
    storeLookup (Game.handleEvent Game.composerFailEnv Game.gameStore
      (dmCallback "csgo")).store (dmCallback "csgo").event.user = none :=
  (composer_failure_aborts Game.composerFailEnv Game.gameStore
    (dmCallback "csgo") ⟨"awaiting_game", ["U1"], ["Chris Lee"]⟩
    ⟨"U7", "alex", "Alex Gray", false, false⟩ "provider error" (by decide)
    (by decide) (by decide) (by decide) (by decide) rfl rfl).2.1

/-- C8: A handshake-verification payload is answered with HTTP 200 and a
body echoing exactly the provided challenge token, the conversation store is
left identical (no entry is created, mutated or deleted), and no dialogue or
recipient message is sent. -/
theorem handshake_bypass (env : HandlerEnv)
    (store : List (String × ConversationState)) (cb : SlackEventCallback)
    (h : cb.type = "url_verification") :
    handleEvent env store cb = ⟨store, 200, some cb.challenge, [], []⟩ :=
  handleEvent_url env store cb h

/-- Witness for C8 at a concrete handshake payload with challenge "c4f3". -/
theorem handshake_bypass_witness :
    handleEvent okEnv namesStore urlVerifyCallback =
      ⟨namesStore, 200, some "c4f3", [], []⟩ :=
  handshake_bypass okEnv namesStore urlVerifyCallback (by decide)

/-- C9: An event whose originating-automation identifier (`bot_id`) is
non-empty leaves the conversation store identical and sends no dialogue or
recipient message. -/
theorem bot_events_ignored (env : HandlerEnv)
    (store : List (String × ConversationState)) (cb : SlackEventCallback)
    (h : cb.event.botID ≠ "") :
    (handleEvent env store cb).store = store ∧
    (handleEvent env store cb).channelMessages = [] ∧
    (handleEvent env store cb).recipientMessages = [] := by
  by_cases hv : cb.type = "url_verification"
  · rw [handleEvent_url env store cb hv]
    exact ⟨rfl, rfl, rfl⟩
  · rw [handleEvent_skip env store cb hv (fun hc => h hc.2)]
    exact ⟨rfl, rfl, rfl⟩

/-- Witness for C9 at a concrete bot-originated event. -/
theorem bot_events_ignored_witness :
    (handleEvent okEnv namesStore botCallback).store = namesStore :=
  (bot_events_ignored okEnv namesStore botCallback (by decide)).1

end GoInviteMe
